import Mathlib

set_option maxHeartbeats 1000000

/-!
Shallow embedding of the stateless chunk-validation core of nearcore
(chain/client/src/chunk_validation.rs) together with the balance/memtrie
properties exercised by the in-memory-tries consistency test
(integration-tests/src/tests/client/features/in_memory_tries.rs).

External collaborators (chain store, epoch manager, runtime, crypto
primitives) are represented as structures of abstract functions, mirroring
the capability interfaces the source consumes.  Machine integers of the
source (u64 heights, u128 balances) are modelled as Nat; hashes and other
opaque identifiers are modelled as Nat tokens.
-/

/- ===== Basic opaque types ===== -/

abbrev Hash := Nat
abbrev AccountId := String
abbrev ShardId := Nat
abbrev EpochId := Nat
abbrev Receipt := Nat
abbrev SignedTransaction := Nat
abbrev Gas := Nat
abbrev Balance := Nat
abbrev ValidatorProposal := Nat
abbrev Outcome := Nat
abbrev PartialState := Nat
abbrev ShardLayout := Nat

deriving instance DecidableEq for Except

/-- CryptoHash::default(), the all-zero hash. -/
def CryptoHash.defaultHash : Hash := 0

/-- ShardUId: a (version, shard_id) pair identifying a shard across layout
versions. -/
structure ShardUId where
  version : Nat
  shard_id : Nat
  deriving DecidableEq

/- ===== Chain data model ===== -/

/-- ShardChunkHeader, restricted to the fields the embedded code reads.
`is_new_chunk` is the flag consulted by the backward walk; the `prev_*`
fields are the commitments compared by the final cross-check. -/
structure ShardChunkHeader where
  shard_id : ShardId
  height_created : Nat
  height_included : Nat
  prev_block_hash : Hash
  chunk_hash : Hash
  tx_root : Hash
  gas_limit : Gas
  prev_state_root : Hash
  prev_outcome_root : Hash
  prev_gas_used : Gas
  prev_validator_proposals : List ValidatorProposal
  prev_outgoing_receipts_root : Hash
  is_new_chunk : Bool
  deriving DecidableEq

structure BlockHeader where
  hash : Hash
  prev_hash : Hash
  height : Nat
  deriving DecidableEq

/-- A block: its header plus one chunk header per shard. -/
structure Block where
  header : BlockHeader
  chunks : List ShardChunkHeader
  deriving DecidableEq

/-- ShardChunk: the chunk body (header plus the transactions it carries). -/
structure ShardChunk where
  header : ShardChunkHeader
  transactions : List SignedTransaction
  deriving DecidableEq

/-- ChunkStateTransition: one step of state evolution for a shard. -/
structure ChunkStateTransition where
  block_hash : Hash
  base_state : PartialState
  post_state_root : Hash
  deriving DecidableEq

/-- ChunkStateWitness: the full replay package. -/
structure ChunkStateWitness where
  chunk_header : ShardChunkHeader
  main_state_transition : ChunkStateTransition
  source_receipt_proofs : List (Hash × Nat)
  applied_receipts_hash : Hash
  transactions : List SignedTransaction
  implicit_transitions : List ChunkStateTransition
  new_transactions : List SignedTransaction
  new_transactions_validation_state : PartialState
  deriving DecidableEq

/-- ChunkExtra: derived post-chunk metadata. -/
structure ChunkExtra where
  state_root : Hash
  outcome_root : Hash
  validator_proposals : List ValidatorProposal
  gas_used : Gas
  gas_limit : Gas
  balance_burnt : Balance
  deriving DecidableEq

/-- StoredChunkStateTransitionData: value stored in the StateTransitionData
column, keyed by (block_hash, shard_id). -/
structure StoredChunkStateTransitionData where
  base_state : PartialState
  receipts_hash : Hash
  deriving DecidableEq

/- ===== Errors ===== -/

/-- Structured stand-in for the format! payloads of
Error::InvalidChunkStateWitness in the source. -/
inductive WitnessFailReason where
  | shardMissing (shard_id : ShardId) (block_hash : Hash)
  | receiptsHash (computed : Hash) (expected : Hash)
  | txRoot (computed : Hash) (expected : Hash)
  | mainPostRoot (computed : Hash) (expected : Hash)
  | implicitPostRoot (computed : Hash) (block_hash : Hash) (expected : Hash)
  | finalStateRoot
  | finalOutcomeRoot
  | finalGas
  | finalValidatorProposals
  | finalReceiptsRoot
  deriving DecidableEq

/-- near_chain_primitives::Error, restricted to the kinds this module can
produce or propagate.  `panicUnwrap` is not a source error: it marks a
Rust `.unwrap()` site, so that "this unwrap never panics" is the statement
that `panicUnwrap` is never returned. -/
inductive Error where
  | NotAValidator
  | NotAChunkValidator
  | InvalidChunkStateWitness (reason : WitnessFailReason)
  | DBNotFound
  | Other
  | panicUnwrap
  deriving DecidableEq

/- ===== Runtime apply results and contexts ===== -/

/-- ApplyChunkResult fields consumed by this module. -/
structure ApplyChunkResult where
  new_root : Hash
  outcomes : List Outcome
  outgoing_receipts : List Receipt
  validator_proposals : List ValidatorProposal
  total_gas_burnt : Gas
  total_balance_burnt : Balance
  deriving DecidableEq

/-- ApplyChunkBlockContext, restricted to the fields read here. -/
structure ApplyChunkBlockContext where
  block_hash : Hash
  height : Nat
  deriving DecidableEq

inductive StorageDataSource where
  | Db
  | Recorded (nodes : PartialState)
  deriving DecidableEq

structure StorageContext where
  storage_data_source : StorageDataSource
  record_storage : Bool
  deriving DecidableEq

structure NewChunkData where
  chunk_header : ShardChunkHeader
  transactions : List SignedTransaction
  receipts : List Receipt
  resharding_state_roots : Option Nat
  block : ApplyChunkBlockContext
  is_first_block_with_chunk_of_version : Bool
  storage_context : StorageContext
  deriving DecidableEq

structure OldChunkData where
  prev_chunk_extra : ChunkExtra
  resharding_state_roots : Option Nat
  block : ApplyChunkBlockContext
  storage_context : StorageContext
  deriving DecidableEq

structure ShardContext where
  shard_uid : ShardUId
  cares_about_shard_this_epoch : Bool
  will_shard_layout_change : Bool
  should_apply_chunk : Bool
  need_to_reshard : Bool
  deriving DecidableEq

/- ===== External collaborators as capability interfaces ===== -/

/-- EpochManagerAdapter capability interface (external collaborator).
get_chunk_validators returns the key set of the validator assignment map. -/
structure EpochManagerAdapter where
  get_epoch_id_from_prev_block : Hash → Except Error EpochId
  get_epoch_id : Hash → Except Error EpochId
  shard_id_to_uid : ShardId → EpochId → Except Error ShardUId
  get_chunk_validators : EpochId → ShardId → Nat → Except Error (List AccountId)
  get_block_producer : EpochId → Nat → Except Error AccountId
  get_shard_layout_from_prev_block : Hash → Except Error ShardLayout
  get_epoch_protocol_version : EpochId → Except Error Nat

/-- Incoming receipts response: one receipt-proof group per traversed block,
as returned by get_incoming_receipts_for_shard. -/
abbrev ReceiptsResponse := List (List Receipt)

/-- ChainStore capability interface (external collaborator). -/
structure ChainStore where
  get_block : Hash → Except Error Block
  get_previous_header : BlockHeader → Except Error BlockHeader
  get_incoming_receipts_for_shard :
    EpochManagerAdapter → ShardId → Hash → Nat → Except Error ReceiptsResponse

/-- Runtime capability interface: apply_new_chunk / apply_old_chunk
(near_chain::chain, external to this module). -/
structure Runtime where
  apply_new_chunk : NewChunkData → ShardContext → Except Error ApplyChunkResult
  apply_old_chunk : OldChunkData → ShardContext → Except Error ApplyChunkResult

/-- Pure external helpers used by the module: cryptographic hashing and
merklization, outcome-root computation, receipts bucketing by shard layout,
block-context construction, and the protocol feature gate. -/
structure Env where
  hash_borsh_receipts : List Receipt → Hash
  merklize_transactions : List SignedTransaction → Hash
  merklize_hashes : List Hash → Hash
  compute_outcomes_root : List Outcome → Hash
  build_receipts_hashes : List Receipt → ShardLayout → List Hash
  get_apply_chunk_block_context :
    BlockHeader → BlockHeader → Bool → Except Error ApplyChunkBlockContext
  chunk_validation_enabled : Nat → Bool

/-- Modelled from the spec: collect_receipts_from_response (near_chain,
not under src/) flattens the per-block receipt groups of the response in
order. -/
def collect_receipts_from_response (response : ReceiptsResponse) : List Receipt :=
  response.flatten

/- ===== Backward chain walk of pre_validate_chunk_state_witness ===== -/

/-- The `loop` of pre_validate_chunk_state_witness (lines 145-171): walk
backwards from `block_hash`, accumulating blocks after the last new chunk
(`acc1`, while prev_chunks_seen == 0) and after the last-last new chunk
(`acc2`, while prev_chunks_seen == 1), stopping after the second new chunk.
`fuel` bounds the recursion; `none` means the loop did not terminate within
`fuel` iterations. -/
def walkLoop (store : ChainStore) (shard_id : ShardId) :
    Nat → Hash → Nat → List Block → List Block →
    Option (Except Error (List Block × List Block))
  | 0, _, _, _, _ => none
  | fuel + 1, block_hash, prev_chunks_seen, acc1, acc2 =>
    match store.get_block block_hash with
    | Except.error e => some (Except.error e)
    | Except.ok block =>
      match block.chunks.get? shard_id with
      | none =>
        some (Except.error (Error.InvalidChunkStateWitness
          (WitnessFailReason.shardMissing shard_id block_hash)))
      | some chunk =>
        let is_new_chunk := chunk.is_new_chunk
        let next_hash := block.header.prev_hash
        let acc1' := if prev_chunks_seen = 0 then acc1 ++ [block] else acc1
        let acc2' := if prev_chunks_seen = 1 then acc2 ++ [block] else acc2
        let seen' := if is_new_chunk then prev_chunks_seen + 1 else prev_chunks_seen
        if seen' = 2 then some (Except.ok (acc1', acc2'))
        else walkLoop store shard_id fuel next_hash seen' acc1' acc2'

/-- Vec::split_last: the last element together with the preceding ones. -/
def splitLastList (l : List Block) : Option (Block × List Block) :=
  match l.getLast? with
  | none => none
  | some b => some (b, l.dropLast)

structure PreValidationOutput where
  main_transition_params : NewChunkData
  implicit_transition_params : List ApplyChunkBlockContext
  deriving DecidableEq

/-- The `.map(...)` over implicit transition blocks (lines 260-271):
build one ApplyChunkBlockContext per block, in the given order. -/
def buildImplicitParams (env : Env) (store : ChainStore) :
    List Block → Except Error (List ApplyChunkBlockContext)
  | [] => Except.ok []
  | block :: rest =>
    match store.get_previous_header block.header with
    | Except.error e => Except.error e
    | Except.ok prev =>
      match env.get_apply_chunk_block_context block.header prev false with
      | Except.error e => Except.error e
      | Except.ok ctx =>
        match buildImplicitParams env store rest with
        | Except.error e => Except.error e
        | Except.ok ctxs => Except.ok (ctx :: ctxs)

/-- pre_validate_chunk_state_witness after the walk (lines 213-272):
split off the last-chunk block, reconstruct the incoming receipts, check
the receipts hash and the transaction root, then assemble the
PreValidationOutput.  Each Rust `.unwrap()` is modelled as returning
`Error.panicUnwrap` in its impossible branch. -/
def preValidateAfterWalk (env : Env) (store : ChainStore)
    (epoch_manager : EpochManagerAdapter) (state_witness : ChunkStateWitness)
    (blocks_after_last_chunk blocks_after_last_last_chunk : List Block) :
    Except Error PreValidationOutput :=
  let shard_id := state_witness.chunk_header.shard_id
  match splitLastList blocks_after_last_chunk with
  | none => Except.error Error.panicUnwrap
  | some (last_chunk_block, implicit_transition_blocks) =>
    match blocks_after_last_last_chunk.getLast? with
    | none => Except.error Error.panicUnwrap
    | some oldest_block =>
      match store.get_incoming_receipts_for_shard epoch_manager shard_id
          last_chunk_block.header.hash oldest_block.header.height with
      | Except.error e => Except.error e
      | Except.ok receipts_response =>
        let receipts_to_apply := collect_receipts_from_response receipts_response
        let applied_receipts_hash := env.hash_borsh_receipts receipts_to_apply
        if applied_receipts_hash ≠ state_witness.applied_receipts_hash then
          Except.error (Error.InvalidChunkStateWitness
            (WitnessFailReason.receiptsHash applied_receipts_hash
              state_witness.applied_receipts_hash))
        else
          let tx_root_from_state_witness :=
            env.merklize_transactions state_witness.transactions
          match last_chunk_block.chunks.get? shard_id with
          | none => Except.error Error.panicUnwrap
          | some last_chunk =>
            if last_chunk.tx_root ≠ tx_root_from_state_witness then
              Except.error (Error.InvalidChunkStateWitness
                (WitnessFailReason.txRoot tx_root_from_state_witness
                  last_chunk.tx_root))
            else
              match store.get_previous_header last_chunk_block.header with
              | Except.error e => Except.error e
              | Except.ok prev_header =>
                match env.get_apply_chunk_block_context
                    last_chunk_block.header prev_header true with
                | Except.error e => Except.error e
                | Except.ok main_block_ctx =>
                  match buildImplicitParams env store
                      implicit_transition_blocks.reverse with
                  | Except.error e => Except.error e
                  | Except.ok implicit_params =>
                    Except.ok {
                      main_transition_params := {
                        chunk_header := last_chunk
                        transactions := state_witness.transactions
                        receipts := receipts_to_apply
                        resharding_state_roots := none
                        block := main_block_ctx
                        is_first_block_with_chunk_of_version := false
                        storage_context := {
                          storage_data_source := StorageDataSource.Recorded
                            state_witness.main_state_transition.base_state
                          record_storage := false } }
                      implicit_transition_params := implicit_params }

/-- pre_validate_chunk_state_witness (lines 130-273): the backward walk
followed by receipt/tx-root checks and output assembly.  `none` means the
walk did not terminate within `fuel`. -/
def pre_validate_chunk_state_witness (env : Env) (store : ChainStore)
    (epoch_manager : EpochManagerAdapter) (state_witness : ChunkStateWitness)
    (fuel : Nat) : Option (Except Error PreValidationOutput) :=
  match walkLoop store state_witness.chunk_header.shard_id fuel
      state_witness.chunk_header.prev_block_hash 0 [] [] with
  | none => none
  | some (Except.error e) => some (Except.error e)
  | some (Except.ok (blocks_after_last_chunk, blocks_after_last_last_chunk)) =>
    some (preValidateAfterWalk env store epoch_manager state_witness
      blocks_after_last_chunk blocks_after_last_last_chunk)

/- ===== Transition replay (validate_chunk_state_witness) ===== -/

/-- apply_result_to_chunk_extra (lines 386-399). -/
def apply_result_to_chunk_extra (env : Env) (apply_result : ApplyChunkResult)
    (chunk : ShardChunkHeader) : ChunkExtra :=
  { state_root := apply_result.new_root
    outcome_root := env.compute_outcomes_root apply_result.outcomes
    validator_proposals := apply_result.validator_proposals
    gas_used := apply_result.total_gas_burnt
    gas_limit := chunk.gas_limit
    balance_burnt := apply_result.total_balance_burnt }

/-- Modelled from the spec: validate_chunk_with_chunk_extra_and_receipts_root
(near_chain::validate, not under src/) compares the recomputed ChunkExtra
and the outgoing-receipts root against the commitments of the proposed
chunk header: state root, outcome root, gas, validator proposals, and
outgoing-receipts root; any disagreement is InvalidWitness. -/
def validate_chunk_with_chunk_extra_and_receipts_root (chunk_extra : ChunkExtra)
    (chunk_header : ShardChunkHeader) (outgoing_receipts_root : Hash) :
    Except Error Unit :=
  if chunk_extra.state_root ≠ chunk_header.prev_state_root then
    Except.error (Error.InvalidChunkStateWitness WitnessFailReason.finalStateRoot)
  else if chunk_extra.outcome_root ≠ chunk_header.prev_outcome_root then
    Except.error (Error.InvalidChunkStateWitness WitnessFailReason.finalOutcomeRoot)
  else if chunk_extra.gas_used ≠ chunk_header.prev_gas_used ∨
      chunk_extra.gas_limit ≠ chunk_header.gas_limit then
    Except.error (Error.InvalidChunkStateWitness WitnessFailReason.finalGas)
  else if chunk_extra.validator_proposals ≠ chunk_header.prev_validator_proposals then
    Except.error (Error.InvalidChunkStateWitness
      WitnessFailReason.finalValidatorProposals)
  else if outgoing_receipts_root ≠ chunk_header.prev_outgoing_receipts_root then
    Except.error (Error.InvalidChunkStateWitness WitnessFailReason.finalReceiptsRoot)
  else Except.ok ()

/-- The `for (block, transition) in ...zip(...)` loop of
validate_chunk_state_witness (lines 321-363): apply each implicit
transition over the recorded partial storage, thread the state root
through the chunk extra, and early-abort on a declared-root mismatch. -/
def applyImplicitTransitions (rt : Runtime) (shard_uid : ShardUId)
    (chunk_extra : ChunkExtra) :
    List (ApplyChunkBlockContext × ChunkStateTransition) →
    Except Error ChunkExtra
  | [] => Except.ok chunk_extra
  | (block, transition) :: rest =>
    let block_hash := block.block_hash
    let old_chunk_data : OldChunkData := {
      prev_chunk_extra := chunk_extra
      resharding_state_roots := none
      block := block
      storage_context := {
        storage_data_source := StorageDataSource.Recorded transition.base_state
        record_storage := false } }
    match rt.apply_old_chunk old_chunk_data
        { shard_uid := shard_uid
          cares_about_shard_this_epoch := true
          will_shard_layout_change := false
          should_apply_chunk := false
          need_to_reshard := false } with
    | Except.error e => Except.error e
    | Except.ok apply_result =>
      let chunk_extra' := { chunk_extra with state_root := apply_result.new_root }
      if chunk_extra'.state_root ≠ transition.post_state_root then
        Except.error (Error.InvalidChunkStateWitness
          (WitnessFailReason.implicitPostRoot chunk_extra'.state_root block_hash
            transition.post_state_root))
      else applyImplicitTransitions rt shard_uid chunk_extra' rest

/-- The replay portion of validate_chunk_state_witness (lines 289-363):
apply the main transition, check the declared main post state root, then
process the implicit transitions.  Returns the final recomputed ChunkExtra
together with the outgoing receipts of the main transition. -/
def replayStateTransitions (env : Env) (epoch_manager : EpochManagerAdapter)
    (rt : Runtime) (state_witness : ChunkStateWitness)
    (pre_validation_output : PreValidationOutput) :
    Except Error (ChunkExtra × List Receipt) :=
  let main_transition := pre_validation_output.main_transition_params
  let chunk_header := main_transition.chunk_header
  match epoch_manager.get_epoch_id main_transition.block.block_hash with
  | Except.error e => Except.error e
  | Except.ok epoch_id =>
    match epoch_manager.shard_id_to_uid main_transition.chunk_header.shard_id
        epoch_id with
    | Except.error e => Except.error e
    | Except.ok shard_uid =>
      match rt.apply_new_chunk main_transition
          { shard_uid := shard_uid
            cares_about_shard_this_epoch := true
            will_shard_layout_change := false
            should_apply_chunk := true
            need_to_reshard := false } with
      | Except.error e => Except.error e
      | Except.ok main_apply_result =>
        let outgoing_receipts := main_apply_result.outgoing_receipts
        let chunk_extra :=
          apply_result_to_chunk_extra env main_apply_result chunk_header
        if chunk_extra.state_root ≠
            state_witness.main_state_transition.post_state_root then
          Except.error (Error.InvalidChunkStateWitness
            (WitnessFailReason.mainPostRoot chunk_extra.state_root
              state_witness.main_state_transition.post_state_root))
        else
          match applyImplicitTransitions rt shard_uid chunk_extra
              (pre_validation_output.implicit_transition_params.zip
                state_witness.implicit_transitions) with
          | Except.error e => Except.error e
          | Except.ok final_chunk_extra =>
            Except.ok (final_chunk_extra, outgoing_receipts)

/-- The outgoing-receipts Merkle root of the final cross-check
(lines 366-371): bucket the outgoing receipts by the shard layout of the
header's previous block, then merklize the bucket hashes. -/
def outgoingReceiptsRoot (env : Env) (outgoing_receipts : List Receipt)
    (shard_layout : ShardLayout) : Hash :=
  env.merklize_hashes (env.build_receipts_hashes outgoing_receipts shard_layout)

/-- validate_chunk_state_witness (lines 282-383): replay the main and
implicit transitions, then run the final cross-check of the recomputed
ChunkExtra and outgoing-receipts root against the proposed chunk header. -/
def validate_chunk_state_witness (env : Env)
    (epoch_manager : EpochManagerAdapter) (rt : Runtime)
    (state_witness : ChunkStateWitness)
    (pre_validation_output : PreValidationOutput) : Except Error Unit :=
  match replayStateTransitions env epoch_manager rt state_witness
      pre_validation_output with
  | Except.error e => Except.error e
  | Except.ok (chunk_extra, outgoing_receipts) =>
    match epoch_manager.get_shard_layout_from_prev_block
        state_witness.chunk_header.prev_block_hash with
    | Except.error e => Except.error e
    | Except.ok shard_layout =>
      validate_chunk_with_chunk_extra_and_receipts_root chunk_extra
        state_witness.chunk_header
        (outgoingReceiptsRoot env outgoing_receipts shard_layout)

/- ===== Validation scheduler (start_validating_chunk) ===== -/

/-- ValidatorSigner capability interface. -/
structure ValidatorSigner where
  validator_id : AccountId
  sign_chunk_endorsement : Hash → Nat

/-- ChunkValidator (lines 37-43): the signer, if any, plus the external
handles captured by spawned validation tasks. -/
structure ChunkValidator where
  my_signer : Option ValidatorSigner
  epoch_manager : EpochManagerAdapter
  runtime_adapter : Runtime

/-- The self-contained task handed to the rayon worker pool by
start_validating_chunk (lines 94-122): the witness, the pre-validation
output, the block producer to endorse to, and the captured signer. -/
structure ValidationTask where
  state_witness : ChunkStateWitness
  pre_validation_result : PreValidationOutput
  block_producer : AccountId
  signer : ValidatorSigner

/-- ChunkEndorsementInner: binds the signer to the chunk hash. -/
structure ChunkEndorsementInner where
  chunk_hash : Hash
  deriving DecidableEq

structure ChunkEndorsement where
  account_id : AccountId
  signature : Nat
  inner : ChunkEndorsementInner
  deriving DecidableEq

/-- An outbound NetworkRequests::ChunkEndorsement message. -/
structure ChunkEndorsementMessage where
  block_producer : AccountId
  endorsement : ChunkEndorsement
  deriving DecidableEq

/-- start_validating_chunk (lines 58-124): refuse without a signer, refuse
when outside the chunk-validator set, pre-validate synchronously, then
hand a self-contained ValidationTask to the worker pool (modelled as
returning the task).  `none` propagates pre-validation non-termination. -/
def start_validating_chunk (cv : ChunkValidator) (env : Env)
    (state_witness : ChunkStateWitness) (chain_store : ChainStore)
    (fuel : Nat) : Option (Except Error ValidationTask) :=
  let chunk_header := state_witness.chunk_header
  match cv.my_signer with
  | none => some (Except.error Error.NotAValidator)
  | some my_signer =>
    match cv.epoch_manager.get_epoch_id_from_prev_block
        chunk_header.prev_block_hash with
    | Except.error e => some (Except.error e)
    | Except.ok epoch_id =>
      match cv.epoch_manager.get_chunk_validators epoch_id
          chunk_header.shard_id chunk_header.height_created with
      | Except.error e => some (Except.error e)
      | Except.ok chunk_validators =>
        if my_signer.validator_id ∉ chunk_validators then
          some (Except.error Error.NotAChunkValidator)
        else
          match pre_validate_chunk_state_witness env chain_store
              cv.epoch_manager state_witness fuel with
          | none => none
          | some (Except.error e) => some (Except.error e)
          | some (Except.ok pre_validation_result) =>
            match cv.epoch_manager.get_block_producer epoch_id
                chunk_header.height_created with
            | Except.error e => some (Except.error e)
            | Except.ok block_producer =>
              some (Except.ok {
                state_witness := state_witness
                pre_validation_result := pre_validation_result
                block_producer := block_producer
                signer := my_signer })

/-- The body of the spawned rayon task (lines 94-122): validate the
witness; on success sign and send the endorsement to the block producer,
on failure log and send nothing. -/
def runValidationTask (env : Env) (epoch_manager : EpochManagerAdapter)
    (rt : Runtime) (task : ValidationTask) : Option ChunkEndorsementMessage :=
  match validate_chunk_state_witness env epoch_manager rt task.state_witness
      task.pre_validation_result with
  | Except.ok _ =>
    let endorsement_to_sign : ChunkEndorsementInner :=
      { chunk_hash := task.state_witness.chunk_header.chunk_hash }
    some {
      block_producer := task.block_producer
      endorsement := {
        account_id := task.signer.validator_id
        signature := task.signer.sign_chunk_endorsement
          endorsement_to_sign.chunk_hash
        inner := endorsement_to_sign } }
  | Except.error _ => none

/- ===== Producer side (witness builder) ===== -/

/-- Chain capability interface of the Client (external collaborator):
the chain-store accesses made by the producer-side code. -/
structure ChainAdapter where
  get_blocks_until_height : Hash → Nat → Bool → Except Error (List Hash)
  get_chunk_extra : Hash → ShardUId → Except Error ChunkExtra
  get_chunk : Hash → Except Error ShardChunk
  get_state_transition_data :
    Hash → ShardId → Except Error (Option StoredChunkStateTransitionData)

/-- The Client fields used by the producer-side code. -/
structure Client where
  epoch_manager : EpochManagerAdapter
  chain : ChainAdapter

/-- The loop over implicit blocks in collect_state_transition_data
(lines 451-466): fetch the stored base state and the local chunk extra of
each block, emitting one ChunkStateTransition per block. -/
def collectImplicitTransitions (c : Client) (shard_id : ShardId)
    (shard_uid : ShardUId) :
    List Hash → Except Error (List ChunkStateTransition)
  | [] => Except.ok []
  | block_hash :: rest =>
    match c.chain.get_state_transition_data block_hash shard_id with
    | Except.error e => Except.error e
    | Except.ok none => Except.error Error.Other
    | Except.ok (some stored) =>
      match c.chain.get_chunk_extra block_hash shard_uid with
      | Except.error e => Except.error e
      | Except.ok extra =>
        match collectImplicitTransitions c shard_id shard_uid rest with
        | Except.error e => Except.error e
        | Except.ok transitions =>
          Except.ok ({ block_hash := block_hash
                       base_state := stored.base_state
                       post_state_root := extra.state_root } :: transitions)

/-- collect_state_transition_data (lines 412-472): walk back to the height
of the previous chunk, split the (reversed, oldest-first) path into the
main block and the implicit blocks, and load the stored transition data
for each.  The Rust split_first().unwrap() on an empty path is modelled as
`Error.panicUnwrap`. -/
def collect_state_transition_data (c : Client)
    (chunk_header : ShardChunkHeader) (prev_chunk_header : ShardChunkHeader) :
    Except Error (ChunkStateTransition × List ChunkStateTransition × Hash) :=
  let shard_id := chunk_header.shard_id
  match c.epoch_manager.get_epoch_id_from_prev_block
      chunk_header.prev_block_hash with
  | Except.error e => Except.error e
  | Except.ok epoch_id =>
    match c.epoch_manager.shard_id_to_uid shard_id epoch_id with
    | Except.error e => Except.error e
    | Except.ok shard_uid =>
      let prev_chunk_height_included := prev_chunk_header.height_included
      match c.chain.get_blocks_until_height chunk_header.prev_block_hash
          prev_chunk_height_included true with
      | Except.error e => Except.error e
      | Except.ok prev_blocks =>
        match prev_blocks.reverse with
        | [] => Except.error Error.panicUnwrap
        | main_block :: implicit_blocks =>
          match c.chain.get_state_transition_data main_block shard_id with
          | Except.error e => Except.error e
          | Except.ok none => Except.error Error.Other
          | Except.ok (some stored) =>
            match c.chain.get_chunk_extra main_block shard_uid with
            | Except.error e => Except.error e
            | Except.ok extra =>
              let main_transition : ChunkStateTransition :=
                { block_hash := main_block
                  base_state := stored.base_state
                  post_state_root := extra.state_root }
              match collectImplicitTransitions c shard_id shard_uid
                  implicit_blocks with
              | Except.error e => Except.error e
              | Except.ok implicit_transitions =>
                Except.ok (main_transition, implicit_transitions,
                  stored.receipts_hash)

/-- An outbound NetworkRequests::ChunkStateWitness message: the selected
chunk-validator set together with the witness. -/
structure WitnessDistribution where
  recipients : List AccountId
  witness : ChunkStateWitness

/-- send_chunk_state_witness_to_chunk_validators (lines 476-525): no-op
when the ChunkValidation feature is disabled for the epoch or at the
genesis boundary; otherwise build the witness from the stored transition
data and dispatch it to the chunk-validator set.  `Except.ok none` models
returning Ok(()) without sending anything. -/
def send_chunk_state_witness_to_chunk_validators (c : Client) (env : Env)
    (epoch_id : EpochId) (prev_chunk_header : ShardChunkHeader)
    (chunk : ShardChunk) : Except Error (Option WitnessDistribution) :=
  match c.epoch_manager.get_epoch_protocol_version epoch_id with
  | Except.error e => Except.error e
  | Except.ok protocol_version =>
    if ¬ env.chunk_validation_enabled protocol_version then
      Except.ok none
    else if prev_chunk_header.prev_block_hash = CryptoHash.defaultHash then
      Except.ok none
    else
      let chunk_header := chunk.header
      match c.epoch_manager.get_chunk_validators epoch_id
          chunk_header.shard_id chunk_header.height_created with
      | Except.error e => Except.error e
      | Except.ok chunk_validators =>
        match c.chain.get_chunk prev_chunk_header.chunk_hash with
        | Except.error e => Except.error e
        | Except.ok prev_chunk =>
          match collect_state_transition_data c chunk_header
              prev_chunk_header with
          | Except.error e => Except.error e
          | Except.ok (main_state_transition, implicit_transitions,
              applied_receipts_hash) =>
            Except.ok (some {
              recipients := chunk_validators
              witness := {
                chunk_header := chunk_header
                main_state_transition := main_state_transition
                source_receipt_proofs := []
                applied_receipts_hash := applied_receipts_hash
                transactions := prev_chunk.transactions
                implicit_transitions := implicit_transitions
                new_transactions := chunk.transactions
                new_transactions_validation_state := 0 } })

/- ===== In-memory-tries consistency test model ===== -/

/-- 1 NEAR in yoctoNEAR, as in the test. -/
def ONE_NEAR : Nat := 1000000000000000000000000

/-- One send-money transaction of the test scenario: 1 NEAR from sender to
receiver. -/
structure Transfer where
  sender : AccountId
  receiver : AccountId
  deriving DecidableEq

/-- The local balance tracking of
run_chain_for_some_blocks_while_sending_money_around (lines 299-300):
for each transfer, subtract ONE_NEAR from the sender's tracked balance,
then add ONE_NEAR to the receiver's. -/
def trackBalances (balances : AccountId → Nat) : List Transfer → (AccountId → Nat)
  | [] => balances
  | t :: rest =>
    let afterSend := fun a => if a = t.sender then balances a - ONE_NEAR else balances a
    let afterReceive :=
      fun a => if a = t.receiver then afterSend a + ONE_NEAR else afterSend a
    trackBalances afterReceive rest

/-- The effect of one executed send-money transaction on chain balances:
the sender loses ONE_NEAR and the receiver gains ONE_NEAR (gas price is
zero in the scenario). -/
def applyTransfer (balances : AccountId → Nat) (t : Transfer) :
    AccountId → Nat :=
  fun a =>
    (if a = t.sender then balances a - ONE_NEAR else balances a) +
      (if a = t.receiver then ONE_NEAR else 0)

/-- TrieConfig: which shards a node loads into in-memory tries. -/
structure TrieConfig where
  load_mem_tries_for_shards : List ShardUId
  deriving DecidableEq

/-- Modelled from the spec: the persistent store is independent of the
in-memory acceleration — after executing the send-money transactions, a
node's queried balance of every account is the genesis balance adjusted by
the executed transfers, regardless of which shards the node's TrieConfig
loads into memtries (also across restarts that change the config). -/
def query_balance (genesis_balances : AccountId → Nat) (txs : List Transfer)
    (_cfg : TrieConfig) (account : AccountId) : Nat :=
  (txs.foldl applyTransfer genesis_balances) account

/-- Modelled from the spec: in-memory trie roots are retained for every
block from the prev block of the last final block up to the head; when the
chain finishes with non-skip blocks the final block of head N is at height
N - 2, so the retained heights are N - 3, ..., N. -/
def retained_memtrie_heights (head : Nat) : List Nat :=
  let last_final := head - 2
  let oldest := last_final - 1
  List.range' oldest (head - oldest + 1)

/-- Modelled from the spec: num_memtrie_roots (test lines 380-390) returns
none for a shard the node does not load into memtries, and the number of
retained memtrie roots for a loaded shard. -/
def num_memtrie_roots (cfg : TrieConfig) (head : Nat) (shard : ShardUId) :
    Option Nat :=
  if shard ∈ cfg.load_mem_tries_for_shards then
    some (retained_memtrie_heights head).length
  else none

/- ===== Concrete fixtures (used by witnesses and counterexamples) ===== -/

/-- A new-chunk header for the given shard with all commitments zero. -/
def chunkHdr0 (sid : ShardId) : ShardChunkHeader :=
  { shard_id := sid
    height_created := 6
    height_included := 6
    prev_block_hash := 0
    chunk_hash := 0
    tx_root := 0
    gas_limit := 0
    prev_state_root := 0
    prev_outcome_root := 0
    prev_gas_used := 0
    prev_validator_proposals := []
    prev_outgoing_receipts_root := 0
    is_new_chunk := true }

def blockA : Block :=
  { header := { hash := 1, prev_hash := 2, height := 5 }, chunks := [chunkHdr0 0] }

def blockB : Block :=
  { header := { hash := 2, prev_hash := 3, height := 4 }, chunks := [chunkHdr0 0] }

/-- A chain with two blocks, both carrying a new chunk for shard 0. -/
def twoBlockStore : ChainStore :=
  { get_block := fun h =>
      if h = 1 then Except.ok blockA
      else if h = 2 then Except.ok blockB
      else Except.error Error.DBNotFound
    get_previous_header := fun h =>
      if h = blockA.header then Except.ok blockB.header
      else Except.error Error.DBNotFound
    get_incoming_receipts_for_shard := fun _ _ _ _ => Except.ok [] }

def env0 : Env :=
  { hash_borsh_receipts := fun _ => 0
    merklize_transactions := fun _ => 0
    merklize_hashes := fun _ => 0
    compute_outcomes_root := fun _ => 0
    build_receipts_hashes := fun _ _ => []
    get_apply_chunk_block_context := fun h _ _ =>
      Except.ok { block_hash := h.hash, height := h.height }
    chunk_validation_enabled := fun v => decide (1 ≤ v) }

def em0 : EpochManagerAdapter :=
  { get_epoch_id_from_prev_block := fun _ => Except.ok 0
    get_epoch_id := fun _ => Except.ok 0
    shard_id_to_uid := fun s _ => Except.ok { version := 1, shard_id := s }
    get_chunk_validators := fun _ _ _ => Except.ok ["account0"]
    get_block_producer := fun _ _ => Except.ok "account0"
    get_shard_layout_from_prev_block := fun _ => Except.ok 0
    get_epoch_protocol_version := fun _ => Except.ok 0 }

def emEmptyValidators : EpochManagerAdapter :=
  { em0 with get_chunk_validators := fun _ _ _ => Except.ok [] }

def rt0 : Runtime :=
  { apply_new_chunk := fun _ _ => Except.ok
      { new_root := 0, outcomes := [], outgoing_receipts := []
        validator_proposals := [], total_gas_burnt := 0, total_balance_burnt := 0 }
    apply_old_chunk := fun d _ => Except.ok
      { new_root := d.prev_chunk_extra.state_root, outcomes := []
        outgoing_receipts := [], validator_proposals := []
        total_gas_burnt := 0, total_balance_burnt := 0 } }

/-- A runtime that computes state root 7 everywhere (mismatch scenarios). -/
def rt7 : Runtime :=
  { apply_new_chunk := fun _ _ => Except.ok
      { new_root := 7, outcomes := [], outgoing_receipts := []
        validator_proposals := [], total_gas_burnt := 0, total_balance_burnt := 0 }
    apply_old_chunk := fun _ _ => Except.ok
      { new_root := 7, outcomes := [], outgoing_receipts := []
        validator_proposals := [], total_gas_burnt := 0, total_balance_burnt := 0 } }

def witness0 : ChunkStateWitness :=
  { chunk_header := { chunkHdr0 0 with prev_block_hash := 1 }
    main_state_transition := { block_hash := 1, base_state := 0, post_state_root := 0 }
    source_receipt_proofs := []
    applied_receipts_hash := 0
    transactions := []
    implicit_transitions := []
    new_transactions := []
    new_transactions_validation_state := 0 }

def preOut0 : PreValidationOutput :=
  { main_transition_params :=
      { chunk_header := chunkHdr0 0
        transactions := []
        receipts := []
        resharding_state_roots := none
        block := { block_hash := 1, height := 5 }
        is_first_block_with_chunk_of_version := false
        storage_context :=
          { storage_data_source := StorageDataSource.Recorded 0
            record_storage := false } }
    implicit_transition_params := [] }

def signer0 : ValidatorSigner :=
  { validator_id := "account0", sign_chunk_endorsement := fun _ => 0 }

def signerOutside : ValidatorSigner :=
  { validator_id := "outsider", sign_chunk_endorsement := fun _ => 0 }

def cvNoSigner : ChunkValidator :=
  { my_signer := none, epoch_manager := em0, runtime_adapter := rt0 }

def cvOutside : ChunkValidator :=
  { my_signer := some signerOutside, epoch_manager := em0, runtime_adapter := rt0 }

def cvEmptySet : ChunkValidator :=
  { my_signer := some signer0, epoch_manager := emEmptyValidators
    runtime_adapter := rt0 }

def chainAdapter0 : ChainAdapter :=
  { get_blocks_until_height := fun _ _ _ => Except.ok [1]
    get_chunk_extra := fun _ _ => Except.ok
      { state_root := 0, outcome_root := 0, validator_proposals := []
        gas_used := 0, gas_limit := 0, balance_burnt := 0 }
    get_chunk := fun _ => Except.ok { header := chunkHdr0 0, transactions := [] }
    get_state_transition_data := fun _ _ =>
      Except.ok (some { base_state := 0, receipts_hash := 0 }) }

def client0 : Client := { epoch_manager := em0, chain := chainAdapter0 }

/- ===== Helper lemmas ===== -/

theorem getLast?_some_of_ne_nil {α : Type} (l : List α) (h : l ≠ []) :
    ∃ x, l.getLast? = some x := by
  cases l with
  | nil => exact absurd rfl h
  | cons a t => exact ⟨(a :: t).getLast (by simp), List.getLast?_eq_getLast _ (by simp)⟩

theorem splitLastList_ne_none (l : List Block) (h : l ≠ []) :
    ∃ x, splitLastList l = some (x, l.dropLast) := by
  obtain ⟨x, hx⟩ := getLast?_some_of_ne_nil l h
  exact ⟨x, by simp [splitLastList, hx]⟩

theorem getLast?_mem {α : Type} : ∀ (l : List α) (x : α),
    l.getLast? = some x → x ∈ l
  | [], x, h => by simp at h
  | [a], x, h => by
    simp at h
    simp [h]
  | a :: b :: t, x, h => by
    rw [List.getLast?_cons_cons] at h
    exact List.mem_cons_of_mem a (getLast?_mem (b :: t) x h)

theorem splitLastList_mem (l : List Block) (x : Block) (t : List Block)
    (h : splitLastList l = some (x, t)) : x ∈ l := by
  unfold splitLastList at h
  cases hg : l.getLast? with
  | none => simp [hg] at h
  | some y =>
    simp [hg] at h
    obtain ⟨h1, _⟩ := h
    subst h1
    exact getLast?_mem l y hg

theorem zip_take_length {α β : Type} (l1 : List α) (l2 : List β) :
    l1.zip (l2.take l1.length) = l1.zip l2 := by
  induction l1 generalizing l2 with
  | nil => simp
  | cons a t ih =>
    cases l2 with
    | nil => simp
    | cons b s => simp [List.zip_cons_cons, ih]

theorem exists_suffix_if {α : Type} (a1 : List α) (b : α) (c : Prop) [Decidable c]
    (r : List α) (h : (if c then a1 ++ [b] else a1) = r) : ∃ u, r = a1 ++ u := by
  by_cases hc : c
  · exact ⟨[b], by rw [← h]; simp [hc]⟩
  · exact ⟨[], by rw [← h]; simp [hc]⟩

theorem exists_suffix_if_append {α : Type} (a1 : List α) (b : α) (c : Prop) [Decidable c]
    (r t : List α) (h : r = (if c then a1 ++ [b] else a1) ++ t) : ∃ u, r = a1 ++ u := by
  by_cases hc : c
  · exact ⟨[b] ++ t, by rw [h]; simp [hc]⟩
  · exact ⟨t, by rw [h]; simp [hc]⟩

theorem walkLoop_acc_extends (store : ChainStore) (sid : ShardId) (fuel : Nat) :
    ∀ (bh : Hash) (seen : Nat) (a1 a2 r1 r2 : List Block),
    walkLoop store sid fuel bh seen a1 a2 = some (Except.ok (r1, r2)) →
    (∃ t1, r1 = a1 ++ t1) ∧ (∃ t2, r2 = a2 ++ t2) := by
  induction fuel with
  | zero =>
    intro bh seen a1 a2 r1 r2 hw
    simp [walkLoop] at hw
  | succ fuel ih =>
    intro bh seen a1 a2 r1 r2 hw
    simp only [walkLoop] at hw
    split at hw
    · simp at hw
    · split at hw
      · simp at hw
      · split at hw <;> split at hw
        all_goals first
          | (simp only [Option.some.injEq, Except.ok.injEq, Prod.mk.injEq] at hw
             exact ⟨exists_suffix_if _ _ _ _ hw.1, exists_suffix_if _ _ _ _ hw.2⟩)
          | (obtain ⟨⟨t1, h1⟩, ⟨t2, h2⟩⟩ := ih _ _ _ _ _ _ hw
             exact ⟨exists_suffix_if_append _ _ _ _ _ h1,
               exists_suffix_if_append _ _ _ _ _ h2⟩)

theorem mem_if_push {α : Type} (a1 : List α) (blk : α) (c : Prop) [Decidable c]
    (r : List α) (h : (if c then a1 ++ [blk] else a1) = r) (P : α → Prop)
    (ha : ∀ b ∈ a1, P b) (hblk : P blk) : ∀ b ∈ r, P b := by
  intro b hb
  rw [← h] at hb
  by_cases hc : c
  · simp [hc] at hb
    rcases hb with hb | hb
    · exact ha b hb
    · rw [hb]; exact hblk
  · simp [hc] at hb
    exact ha b hb

theorem walkLoop_chunks_exist (store : ChainStore) (sid : ShardId) (fuel : Nat) :
    ∀ (bh : Hash) (seen : Nat) (a1 a2 r1 r2 : List Block),
    walkLoop store sid fuel bh seen a1 a2 = some (Except.ok (r1, r2)) →
    (∀ b ∈ a1, ∃ c, b.chunks.get? sid = some c) →
    (∀ b ∈ a2, ∃ c, b.chunks.get? sid = some c) →
    (∀ b ∈ r1, ∃ c, b.chunks.get? sid = some c) ∧
      (∀ b ∈ r2, ∃ c, b.chunks.get? sid = some c) := by
  induction fuel with
  | zero =>
    intro bh seen a1 a2 r1 r2 hw _ _
    simp [walkLoop] at hw
  | succ fuel ih =>
    intro bh seen a1 a2 r1 r2 hw h1 h2
    simp only [walkLoop] at hw
    split at hw
    · simp at hw
    · split at hw
      · simp at hw
      · rename_i chunk heqc
        split at hw <;> split at hw
        all_goals first
          | (simp only [Option.some.injEq, Except.ok.injEq, Prod.mk.injEq] at hw
             exact ⟨mem_if_push _ _ _ _ hw.1 _ h1 ⟨chunk, heqc⟩,
               mem_if_push _ _ _ _ hw.2 _ h2 ⟨chunk, heqc⟩⟩)
          | (exact ih _ _ _ _ _ _ hw
              (mem_if_push _ _ _ _ rfl _ h1 ⟨chunk, heqc⟩)
              (mem_if_push _ _ _ _ rfl _ h2 ⟨chunk, heqc⟩))

theorem walkLoop_nonempty (store : ChainStore) (sid : ShardId) (fuel : Nat) :
    ∀ (bh : Hash) (seen : Nat) (a1 a2 r1 r2 : List Block),
    walkLoop store sid fuel bh seen a1 a2 = some (Except.ok (r1, r2)) →
    (seen = 0 → r1 ≠ [] ∧ r2 ≠ []) ∧ (seen = 1 → r2 ≠ []) := by
  induction fuel with
  | zero =>
    intro bh seen a1 a2 r1 r2 hw
    simp [walkLoop] at hw
  | succ fuel ih =>
    intro bh seen a1 a2 r1 r2 hw
    simp only [walkLoop] at hw
    split at hw
    · simp at hw
    · rename_i block heqb
      split at hw
      · simp at hw
      · rename_i chunk heqc
        by_cases hnew : chunk.is_new_chunk = true
        · simp only [if_pos hnew] at hw
          by_cases hb : seen + 1 = 2
          · rw [if_pos hb] at hw
            simp only [Option.some.injEq, Except.ok.injEq, Prod.mk.injEq] at hw
            obtain ⟨hw1, hw2⟩ := hw
            constructor
            · intro hs0
              exact absurd hb (by omega)
            · intro hs1
              rw [← hw2]
              simp [hs1]
          · rw [if_neg hb] at hw
            constructor
            · intro hs0
              constructor
              · obtain ⟨⟨t1, ht1⟩, _⟩ := walkLoop_acc_extends store sid fuel _ _ _ _ _ _ hw
                rw [ht1]
                intro hcontra
                simp [hs0] at hcontra
              · exact (ih _ _ _ _ _ _ hw).2 (by omega)
            · intro hs1
              exact absurd hb (by omega)
        · simp only [if_neg hnew] at hw
          by_cases hb : seen = 2
          · rw [if_pos hb] at hw
            constructor
            · intro hs0
              exact absurd hb (by omega)
            · intro hs1
              exact absurd hb (by omega)
          · rw [if_neg hb] at hw
            exact ih _ _ _ _ _ _ hw

theorem buildImplicitParams_no_panic (env : Env) (store : ChainStore)
    (hprev : ∀ h, store.get_previous_header h ≠ Except.error Error.panicUnwrap)
    (hctx : ∀ h p b, env.get_apply_chunk_block_context h p b ≠
      Except.error Error.panicUnwrap) :
    ∀ l, buildImplicitParams env store l ≠ Except.error Error.panicUnwrap := by
  intro l
  induction l with
  | nil => simp [buildImplicitParams]
  | cons blk rest ih =>
    simp only [buildImplicitParams]
    split
    · rename_i e heq
      intro hc
      injection hc with h
      subst h
      exact hprev _ heq
    · rename_i prev heq
      split
      · rename_i e heq2
        intro hc
        injection hc with h
        subst h
        exact hctx _ _ _ heq2
      · rename_i ctx heq2
        split
        · rename_i e heq3
          intro hc
          injection hc with h
          subst h
          exact ih heq3
        · simp

theorem buildImplicitParams_length (env : Env) (store : ChainStore) :
    ∀ (l : List Block) (ps : List ApplyChunkBlockContext),
    buildImplicitParams env store l = Except.ok ps → ps.length = l.length := by
  intro l
  induction l with
  | nil =>
    intro ps h
    simp only [buildImplicitParams, Except.ok.injEq] at h
    simp [← h]
  | cons blk rest ih =>
    intro ps h
    simp only [buildImplicitParams] at h
    split at h
    · simp at h
    · split at h
      · simp at h
      · split at h
        · simp at h
        · rename_i ctxs heq
          simp only [Except.ok.injEq] at h
          rw [← h]
          simp [ih ctxs heq]

theorem preValidateAfterWalk_no_panic (env : Env) (store : ChainStore)
    (em : EpochManagerAdapter) (w : ChunkStateWitness) (b1 b2 : List Block)
    (hb1 : b1 ≠ []) (hb2 : b2 ≠ [])
    (hP1 : ∀ b ∈ b1, ∃ c, b.chunks.get? w.chunk_header.shard_id = some c)
    (hrec : ∀ em2 sid h n, store.get_incoming_receipts_for_shard em2 sid h n ≠
      Except.error Error.panicUnwrap)
    (hprev : ∀ h, store.get_previous_header h ≠ Except.error Error.panicUnwrap)
    (hctx : ∀ h p b, env.get_apply_chunk_block_context h p b ≠
      Except.error Error.panicUnwrap) :
    preValidateAfterWalk env store em w b1 b2 ≠ Except.error Error.panicUnwrap := by
  obtain ⟨lcb, hsl⟩ := splitLastList_ne_none b1 hb1
  obtain ⟨old, hold⟩ := getLast?_some_of_ne_nil b2 hb2
  obtain ⟨lc, hlc⟩ := hP1 lcb (splitLastList_mem b1 lcb _ hsl)
  simp only [preValidateAfterWalk, hsl, hold]
  split
  · rename_i e heq
    intro hc
    injection hc with h
    subst h
    exact hrec _ _ _ _ heq
  · rename_i resp heq
    split
    · simp
    · simp only [hlc]
      split
      · simp
      · split
        · rename_i e heq2
          intro hc
          injection hc with h
          subst h
          exact hprev _ heq2
        · rename_i prev heq2
          split
          · rename_i e heq3
            intro hc
            injection hc with h
            subst h
            exact hctx _ _ _ heq3
          · rename_i ctx heq3
            split
            · rename_i e heq4
              intro hc
              injection hc with h
              subst h
              exact buildImplicitParams_no_panic env store hprev hctx _ heq4
            · simp

theorem trackBalances_cons (balances : AccountId → Nat) (t : Transfer)
    (rest : List Transfer) :
    trackBalances balances (t :: rest) =
      trackBalances (applyTransfer balances t) rest := by
  have hfun : (fun a => if a = t.receiver
      then (if a = t.sender then balances a - ONE_NEAR else balances a) + ONE_NEAR
      else (if a = t.sender then balances a - ONE_NEAR else balances a)) =
      applyTransfer balances t := by
    funext x
    simp only [applyTransfer]
    by_cases hr : x = t.receiver
    · rw [if_pos hr, if_pos hr]
    · rw [if_neg hr, if_neg hr, Nat.add_zero]
  simp only [trackBalances]
  rw [hfun]

theorem trackBalances_eq_foldl (txs : List Transfer) :
    ∀ (balances : AccountId → Nat) (a : AccountId),
    trackBalances balances txs a = (txs.foldl applyTransfer balances) a := by
  induction txs with
  | nil => intro balances a; rfl
  | cons t rest ih =>
    intro balances a
    rw [trackBalances_cons, List.foldl_cons]
    exact ih _ a

theorem checker_ok_state_root (ce : ChunkExtra) (h : ShardChunkHeader) (r : Hash)
    (hok : validate_chunk_with_chunk_extra_and_receipts_root ce h r =
      Except.ok ()) : ce.state_root = h.prev_state_root := by
  unfold validate_chunk_with_chunk_extra_and_receipts_root at hok
  split_ifs at hok with h1 h2 h3 h4 h5
  push_neg at h1
  exact h1

/- ===== Claim theorems ===== -/

/-- C8: in the money-transfer scenario, the queried final balance of every
account equals the locally tracked expected balance, and the result is
independent of the loaded-shards TrieConfig: two runs over the same
transfers that differ only in configuration agree on every balance. -/
theorem c8_balance_config_independence (genesis_balances : AccountId → Nat)
    (txs : List Transfer) (cfg1 cfg2 : TrieConfig) (account : AccountId) :
    query_balance genesis_balances txs cfg1 account =
      query_balance genesis_balances txs cfg2 account ∧
    query_balance genesis_balances txs cfg1 account =
      trackBalances genesis_balances txs account :=
  ⟨rfl, (trackBalances_eq_foldl txs genesis_balances account).symm⟩

/-- C9: after the chain settles, every shard loaded into memtries retains
exactly 4 roots (heights N-3 .. N for head N), and num_memtrie_roots is
none for every shard the node does not load. -/
theorem c9_memtrie_root_retention (cfg : TrieConfig) (head : Nat)
    (shardIn shardOut : ShardUId) (hhead : 3 ≤ head)
    (hin : shardIn ∈ cfg.load_mem_tries_for_shards)
    (hout : shardOut ∉ cfg.load_mem_tries_for_shards) :
    num_memtrie_roots cfg head shardIn = some 4 ∧
      num_memtrie_roots cfg head shardOut = none := by
  constructor
  · simp only [num_memtrie_roots, if_pos hin, retained_memtrie_heights,
      List.length_range', Option.some.injEq]
    omega
  · simp [num_memtrie_roots, hout]

/-- Witness for C9 at the test's configuration (client 1 loading shards 0
and 2, head far beyond genesis height 10000). -/
theorem c9_memtrie_root_retention_witness :
    num_memtrie_roots { load_mem_tries_for_shards := [⟨1, 0⟩, ⟨1, 2⟩] } 10300
        ⟨1, 0⟩ = some 4 ∧
      num_memtrie_roots { load_mem_tries_for_shards := [⟨1, 0⟩, ⟨1, 2⟩] } 10300
        ⟨1, 1⟩ = none :=
  c9_memtrie_root_retention _ 10300 _ _ (by decide) (by decide) (by decide)

/-- C7: with the ChunkValidation feature disabled for the epoch, the
producer path returns success without building or dispatching a witness;
likewise at the genesis boundary (prev chunk's prev block hash is the
default hash); and on the validator path an empty chunk-validator set
(the pre-upgrade state) means no validation task is ever spawned. -/
theorem c7_feature_and_genesis_noop (c : Client) (env : Env) (epoch_id : EpochId)
    (prev_chunk_header : ShardChunkHeader) (chunk : ShardChunk)
    (cv : ChunkValidator) (w : ChunkStateWitness) (pv : Nat)
    (hpv : c.epoch_manager.get_epoch_protocol_version epoch_id = Except.ok pv) :
    (env.chunk_validation_enabled pv = false →
      send_chunk_state_witness_to_chunk_validators c env epoch_id
        prev_chunk_header chunk = Except.ok none)
    ∧ (prev_chunk_header.prev_block_hash = CryptoHash.defaultHash →
      send_chunk_state_witness_to_chunk_validators c env epoch_id
        prev_chunk_header chunk = Except.ok none)
    ∧ ((∀ eid, cv.epoch_manager.get_chunk_validators eid w.chunk_header.shard_id
          w.chunk_header.height_created = Except.ok []) →
      ∀ store fuel, ¬ ∃ t, start_validating_chunk cv env w store fuel =
        some (Except.ok t)) := by
  refine ⟨?_, ?_, ?_⟩
  · intro hdis
    simp only [send_chunk_state_witness_to_chunk_validators, hpv]
    simp [hdis]
  · intro hgen
    simp only [send_chunk_state_witness_to_chunk_validators, hpv]
    by_cases hen : env.chunk_validation_enabled pv <;> simp [hen, hgen]
  · intro hempty store fuel
    rintro ⟨t, ht⟩
    simp only [start_validating_chunk] at ht
    cases hs : cv.my_signer with
    | none =>
      rw [hs] at ht
      simp at ht
    | some s =>
      rw [hs] at ht
      cases heid : cv.epoch_manager.get_epoch_id_from_prev_block
          w.chunk_header.prev_block_hash with
      | error e =>
        rw [heid] at ht
        simp at ht
      | ok eid =>
        rw [heid] at ht
        simp [hempty eid] at ht

/-- Witness for C7: feature disabled at protocol version 0 (producer no-op),
genesis boundary with the feature enabled (producer no-op), and an empty
validator set (no task spawned). -/
theorem c7_feature_and_genesis_noop_witness :
    send_chunk_state_witness_to_chunk_validators client0 env0 0 (chunkHdr0 0)
      { header := chunkHdr0 0, transactions := [] } = Except.ok none
    ∧ send_chunk_state_witness_to_chunk_validators client0
      { env0 with chunk_validation_enabled := fun _ => true } 0 (chunkHdr0 0)
      { header := chunkHdr0 0, transactions := [] } = Except.ok none
    ∧ ¬ ∃ t, start_validating_chunk cvEmptySet env0 witness0 twoBlockStore 2 =
        some (Except.ok t) := by
  refine ⟨?_, ?_, ?_⟩
  · exact (c7_feature_and_genesis_noop client0 env0 0 (chunkHdr0 0)
      { header := chunkHdr0 0, transactions := [] } cvEmptySet witness0 0
      rfl).1 rfl
  · exact (c7_feature_and_genesis_noop client0
      { env0 with chunk_validation_enabled := fun _ => true } 0 (chunkHdr0 0)
      { header := chunkHdr0 0, transactions := [] } cvEmptySet witness0 0
      rfl).2.1 rfl
  · exact (c7_feature_and_genesis_noop client0 env0 0 (chunkHdr0 0)
      { header := chunkHdr0 0, transactions := [] } cvEmptySet witness0 0
      rfl).2.2 (fun _ => rfl) twoBlockStore 2

/-- C6: start_validating_chunk refuses with NotAValidator when no signer
is configured, and with NotAChunkValidator when the node's validator id is
outside the chunk-validator set of (epoch, shard, height) — in both cases
for every chain store and fuel, i.e. before pre-validation touches the
store and without spawning a validation task. -/
theorem c6_scheduler_gates (env : Env) (w : ChunkStateWitness)
    (cvN cv : ChunkValidator) (s : ValidatorSigner) (epoch_id : EpochId)
    (validators : List AccountId)
    (hnone : cvN.my_signer = none)
    (hs : cv.my_signer = some s)
    (heid : cv.epoch_manager.get_epoch_id_from_prev_block
      w.chunk_header.prev_block_hash = Except.ok epoch_id)
    (hval : cv.epoch_manager.get_chunk_validators epoch_id
      w.chunk_header.shard_id w.chunk_header.height_created =
      Except.ok validators)
    (hmem : s.validator_id ∉ validators) :
    (∀ store fuel, start_validating_chunk cvN env w store fuel =
      some (Except.error Error.NotAValidator)) ∧
    (∀ store fuel, start_validating_chunk cv env w store fuel =
      some (Except.error Error.NotAChunkValidator)) := by
  constructor
  · intro store fuel
    simp [start_validating_chunk, hnone]
  · intro store fuel
    simp only [start_validating_chunk, hs, heid, hval]
    simp [hmem]

/-- Witness for C6: a node without a signer, and a node whose signer is
outside the validator set returned by the epoch manager. -/
theorem c6_scheduler_gates_witness :
    start_validating_chunk cvNoSigner env0 witness0 twoBlockStore 2 =
      some (Except.error Error.NotAValidator) ∧
    start_validating_chunk cvOutside env0 witness0 twoBlockStore 2 =
      some (Except.error Error.NotAChunkValidator) := by
  have h := c6_scheduler_gates env0 witness0 cvNoSigner cvOutside signerOutside
    0 ["account0"] rfl rfl rfl rfl (by decide)
  exact ⟨h.1 twoBlockStore 2, h.2 twoBlockStore 2⟩

/-- C2: once the backward walk and the incoming-receipts reconstruction
succeed, pre_validate_chunk_state_witness fails with InvalidWitness
whenever the hash of the serialized reconstructed receipts differs from
witness.applied_receipts_hash; equivalently, every witness that passes
pre-validation satisfies the hash equality. -/
theorem c2_receipts_hash_precheck (env : Env) (store : ChainStore)
    (em : EpochManagerAdapter) (w : ChunkStateWitness) (fuel : Nat)
    (b1 b2 : List Block) (lcb : Block) (imps : List Block) (old : Block)
    (resp : ReceiptsResponse)
    (hwalk : walkLoop store w.chunk_header.shard_id fuel
      w.chunk_header.prev_block_hash 0 [] [] = some (Except.ok (b1, b2)))
    (hsplit : splitLastList b1 = some (lcb, imps))
    (hlast : b2.getLast? = some old)
    (hresp : store.get_incoming_receipts_for_shard em w.chunk_header.shard_id
      lcb.header.hash old.header.height = Except.ok resp) :
    (env.hash_borsh_receipts (collect_receipts_from_response resp) ≠
        w.applied_receipts_hash →
      pre_validate_chunk_state_witness env store em w fuel =
        some (Except.error (Error.InvalidChunkStateWitness
          (WitnessFailReason.receiptsHash
            (env.hash_borsh_receipts (collect_receipts_from_response resp))
            w.applied_receipts_hash)))) ∧
    (∀ out, pre_validate_chunk_state_witness env store em w fuel =
        some (Except.ok out) →
      env.hash_borsh_receipts (collect_receipts_from_response resp) =
        w.applied_receipts_hash) := by
  constructor
  · intro hne
    simp only [pre_validate_chunk_state_witness, hwalk, preValidateAfterWalk,
      hsplit, hlast, hresp]
    simp [hne]
  · intro out hout
    by_contra hne
    simp only [pre_validate_chunk_state_witness, hwalk, preValidateAfterWalk,
      hsplit, hlast, hresp] at hout
    simp [hne] at hout

/-- Witness for C2: a witness with a corrupted applied_receipts_hash is
rejected with the receipts-hash InvalidWitness error, and the accepted
fixture witness satisfies the hash equality. -/
theorem c2_receipts_hash_precheck_witness :
    pre_validate_chunk_state_witness env0 twoBlockStore em0
      { witness0 with applied_receipts_hash := 5 } 2 =
      some (Except.error (Error.InvalidChunkStateWitness
        (WitnessFailReason.receiptsHash 0 5))) ∧
    env0.hash_borsh_receipts (collect_receipts_from_response []) =
      witness0.applied_receipts_hash := by
  constructor
  · exact (c2_receipts_hash_precheck env0 twoBlockStore em0
      { witness0 with applied_receipts_hash := 5 } 2 [blockA] [blockB] blockA
      [] blockB [] rfl rfl rfl rfl).1 (by decide)
  · exact (c2_receipts_hash_precheck env0 twoBlockStore em0 witness0 2 [blockA]
      [blockB] blockA [] blockB [] rfl rfl rfl rfl).2 preOut0 rfl

/-- C5: once the walk, receipts reconstruction and receipts-hash check
succeed, pre_validate_chunk_state_witness fails with InvalidWitness unless
the Merkle root of witness.transactions equals the tx_root of the last new
chunk found by the backward walk; every witness that passes pre-validation
satisfies that equality. -/
theorem c5_tx_root_precheck (env : Env) (store : ChainStore)
    (em : EpochManagerAdapter) (w : ChunkStateWitness) (fuel : Nat)
    (b1 b2 : List Block) (lcb : Block) (imps : List Block) (old : Block)
    (resp : ReceiptsResponse) (last_chunk : ShardChunkHeader)
    (hwalk : walkLoop store w.chunk_header.shard_id fuel
      w.chunk_header.prev_block_hash 0 [] [] = some (Except.ok (b1, b2)))
    (hsplit : splitLastList b1 = some (lcb, imps))
    (hlast : b2.getLast? = some old)
    (hresp : store.get_incoming_receipts_for_shard em w.chunk_header.shard_id
      lcb.header.hash old.header.height = Except.ok resp)
    (hhash : env.hash_borsh_receipts (collect_receipts_from_response resp) =
      w.applied_receipts_hash)
    (hchunk : lcb.chunks.get? w.chunk_header.shard_id = some last_chunk) :
    (last_chunk.tx_root ≠ env.merklize_transactions w.transactions →
      pre_validate_chunk_state_witness env store em w fuel =
        some (Except.error (Error.InvalidChunkStateWitness
          (WitnessFailReason.txRoot (env.merklize_transactions w.transactions)
            last_chunk.tx_root)))) ∧
    (∀ out, pre_validate_chunk_state_witness env store em w fuel =
        some (Except.ok out) →
      env.merklize_transactions w.transactions = last_chunk.tx_root) := by
  constructor
  · intro hne
    simp only [pre_validate_chunk_state_witness, hwalk, preValidateAfterWalk,
      hsplit, hlast, hresp, hchunk]
    simp [hhash, hne]
  · intro out hout
    by_contra hne
    simp only [pre_validate_chunk_state_witness, hwalk, preValidateAfterWalk,
      hsplit, hlast, hresp, hchunk] at hout
    simp [hhash, Ne.symm hne] at hout

/-- Witness for C5: a witness whose transactions merklize to a different
root than the last new chunk's tx_root is rejected with the tx-root
InvalidWitness error, and the accepted fixture witness satisfies the
equality. -/
theorem c5_tx_root_precheck_witness :
    pre_validate_chunk_state_witness
      { env0 with merklize_transactions := fun txs => txs.length }
      twoBlockStore em0 { witness0 with transactions := [42] } 2 =
      some (Except.error (Error.InvalidChunkStateWitness
        (WitnessFailReason.txRoot 1 0))) ∧
    env0.merklize_transactions witness0.transactions = (chunkHdr0 0).tx_root := by
  constructor
  · exact (c5_tx_root_precheck
      { env0 with merklize_transactions := fun txs => txs.length }
      twoBlockStore em0 { witness0 with transactions := [42] } 2 [blockA]
      [blockB] blockA [] blockB [] (chunkHdr0 0) rfl rfl rfl rfl rfl
      rfl).1 (by decide)
  · exact (c5_tx_root_precheck env0 twoBlockStore em0 witness0 2 [blockA]
      [blockB] blockA [] blockB [] (chunkHdr0 0) rfl rfl rfl rfl rfl
      rfl).2 preOut0 rfl

/-- C4: during replay every intermediate declared post state root is
checked: a main-transition mismatch fails with the mainPostRoot
InvalidWitness error no matter what implicit transitions the witness
declares (i.e. before any implicit transition is processed), and a
mismatch at an implicit transition fails with an InvalidWitness error
naming that transition's block, independently of the remaining
transitions. -/
theorem c4_intermediate_root_early_abort (env : Env)
    (em : EpochManagerAdapter) (rt : Runtime) (w : ChunkStateWitness)
    (pre : PreValidationOutput) (eid : EpochId) (su : ShardUId)
    (r : ApplyChunkResult)
    (heid : em.get_epoch_id pre.main_transition_params.block.block_hash =
      Except.ok eid)
    (hsu : em.shard_id_to_uid pre.main_transition_params.chunk_header.shard_id
      eid = Except.ok su)
    (happ : rt.apply_new_chunk pre.main_transition_params
      { shard_uid := su, cares_about_shard_this_epoch := true
        will_shard_layout_change := false, should_apply_chunk := true
        need_to_reshard := false } = Except.ok r) :
    ((apply_result_to_chunk_extra env r
        pre.main_transition_params.chunk_header).state_root ≠
        w.main_state_transition.post_state_root →
      ∀ its, validate_chunk_state_witness env em rt
        { w with implicit_transitions := its } pre =
        Except.error (Error.InvalidChunkStateWitness
          (WitnessFailReason.mainPostRoot
            (apply_result_to_chunk_extra env r
              pre.main_transition_params.chunk_header).state_root
            w.main_state_transition.post_state_root))) ∧
    (∀ (su2 : ShardUId) (ce : ChunkExtra) (b : ApplyChunkBlockContext)
        (t : ChunkStateTransition) (r2 : ApplyChunkResult)
        (rest : List (ApplyChunkBlockContext × ChunkStateTransition)),
      rt.apply_old_chunk
        { prev_chunk_extra := ce, resharding_state_roots := none, block := b
          storage_context :=
            { storage_data_source := StorageDataSource.Recorded t.base_state
              record_storage := false } }
        { shard_uid := su2, cares_about_shard_this_epoch := true
          will_shard_layout_change := false, should_apply_chunk := false
          need_to_reshard := false } = Except.ok r2 →
      r2.new_root ≠ t.post_state_root →
      applyImplicitTransitions rt su2 ce ((b, t) :: rest) =
        Except.error (Error.InvalidChunkStateWitness
          (WitnessFailReason.implicitPostRoot r2.new_root b.block_hash
            t.post_state_root))) := by
  constructor
  · intro hne its
    simp only [validate_chunk_state_witness, replayStateTransitions, heid,
      hsu, happ]
    simp [hne]
  · intro su2 ce b t r2 rest happly hne
    simp only [applyImplicitTransitions, happly]
    simp [hne]

/-- Witness for C4: a runtime computing state root 7 against declared
post roots 0 fails on the main transition (for a witness with a pending
implicit transition) and on the first implicit transition, naming its
block hash 9. -/
theorem c4_intermediate_root_early_abort_witness :
    validate_chunk_state_witness env0 em0 rt7
      { witness0 with implicit_transitions :=
          [{ block_hash := 9, base_state := 0, post_state_root := 0 }] }
      preOut0 = Except.error (Error.InvalidChunkStateWitness
        (WitnessFailReason.mainPostRoot 7 0)) ∧
    applyImplicitTransitions rt7 { version := 1, shard_id := 0 }
      { state_root := 0, outcome_root := 0, validator_proposals := []
        gas_used := 0, gas_limit := 0, balance_burnt := 0 }
      [({ block_hash := 9, height := 1 },
        { block_hash := 9, base_state := 0, post_state_root := 0 })] =
      Except.error (Error.InvalidChunkStateWitness
        (WitnessFailReason.implicitPostRoot 7 9 0)) := by
  have h := c4_intermediate_root_early_abort env0 em0 rt7 witness0 preOut0 0
    { version := 1, shard_id := 0 }
    { new_root := 7, outcomes := [], outgoing_receipts := []
      validator_proposals := [], total_gas_burnt := 0, total_balance_burnt := 0 }
    rfl rfl rfl
  exact ⟨h.1 (by decide) _, h.2 _ _ _ _ _ [] rfl (by decide)⟩

/-- C1: validate_chunk_state_witness returns Ok only if the final
cross-check validate_chunk_with_chunk_extra_and_receipts_root succeeds on
the recomputed ChunkExtra, the proposed chunk header and the Merkle root
of the bucketed outgoing receipts; any disagreement it reports makes
validation fail with that error; and on success the final recomputed state
root equals chunk_header.prev_state_root. -/
theorem c1_final_crosscheck (env : Env) (em : EpochManagerAdapter)
    (rt : Runtime) (w : ChunkStateWitness) (pre : PreValidationOutput) :
    (validate_chunk_state_witness env em rt w pre = Except.ok () →
      ∃ ce rec layout,
        replayStateTransitions env em rt w pre = Except.ok (ce, rec) ∧
        em.get_shard_layout_from_prev_block w.chunk_header.prev_block_hash =
          Except.ok layout ∧
        validate_chunk_with_chunk_extra_and_receipts_root ce w.chunk_header
          (outgoingReceiptsRoot env rec layout) = Except.ok () ∧
        ce.state_root = w.chunk_header.prev_state_root) ∧
    (∀ ce rec layout e,
      replayStateTransitions env em rt w pre = Except.ok (ce, rec) →
      em.get_shard_layout_from_prev_block w.chunk_header.prev_block_hash =
        Except.ok layout →
      validate_chunk_with_chunk_extra_and_receipts_root ce w.chunk_header
        (outgoingReceiptsRoot env rec layout) = Except.error e →
      validate_chunk_state_witness env em rt w pre = Except.error e) := by
  constructor
  · intro hok
    cases hrep : replayStateTransitions env em rt w pre with
    | error e =>
      simp only [validate_chunk_state_witness, hrep] at hok
      simp at hok
    | ok p =>
      obtain ⟨ce, rec⟩ := p
      cases hlay : em.get_shard_layout_from_prev_block
          w.chunk_header.prev_block_hash with
      | error e =>
        simp only [validate_chunk_state_witness, hrep, hlay] at hok
        simp at hok
      | ok layout =>
        simp only [validate_chunk_state_witness, hrep, hlay] at hok
        exact ⟨ce, rec, layout, rfl, rfl, hok,
          checker_ok_state_root _ _ _ hok⟩
  · intro ce rec layout e hrep hlay herr
    simp only [validate_chunk_state_witness, hrep, hlay]
    exact herr

/-- Witness for C1: the fixture witness passes validation, so the final
cross-check succeeds with matching state root; corrupting the header's
committed prev_state_root makes validation fail with the cross-check's
state-root error. -/
theorem c1_final_crosscheck_witness :
    (∃ ce rec layout,
      replayStateTransitions env0 em0 rt0 witness0 preOut0 =
        Except.ok (ce, rec) ∧
      em0.get_shard_layout_from_prev_block
        witness0.chunk_header.prev_block_hash = Except.ok layout ∧
      validate_chunk_with_chunk_extra_and_receipts_root ce
        witness0.chunk_header (outgoingReceiptsRoot env0 rec layout) =
        Except.ok () ∧
      ce.state_root = witness0.chunk_header.prev_state_root) ∧
    validate_chunk_state_witness env0 em0 rt0
      { witness0 with chunk_header :=
          { chunkHdr0 0 with prev_block_hash := 1, prev_state_root := 9 } }
      preOut0 = Except.error (Error.InvalidChunkStateWitness
        WitnessFailReason.finalStateRoot) := by
  constructor
  · exact (c1_final_crosscheck env0 em0 rt0 witness0 preOut0).1 rfl
  · exact (c1_final_crosscheck env0 em0 rt0
      { witness0 with chunk_header :=
          { chunkHdr0 0 with prev_block_hash := 1, prev_state_root := 9 } }
      preOut0).2
      { state_root := 0, outcome_root := 0, validator_proposals := []
        gas_used := 0, gas_limit := 0, balance_burnt := 0 } [] 0
      (Error.InvalidChunkStateWitness WitnessFailReason.finalStateRoot)
      rfl rfl rfl

/-- C3 counterexample: a witness whose implicit_transitions list is longer
than the window of non-new-chunk blocks (here: window empty, list of
length one) is still accepted by pre-validation plus validation, because
the replay zips the two lists and silently ignores the excess. -/
theorem c3_length_counterexample :
    pre_validate_chunk_state_witness env0 twoBlockStore em0
      { witness0 with implicit_transitions :=
          [{ block_hash := 99, base_state := 0, post_state_root := 77 }] } 2 =
      some (Except.ok preOut0) ∧
    preOut0.implicit_transition_params.length = 0 ∧
    ({ witness0 with implicit_transitions :=
        [{ block_hash := 99, base_state := 0, post_state_root := 77 }] } :
      ChunkStateWitness).implicit_transitions.length = 1 ∧
    validate_chunk_state_witness env0 em0 rt0
      { witness0 with implicit_transitions :=
          [{ block_hash := 99, base_state := 0, post_state_root := 77 }] }
      preOut0 = Except.ok () :=
  ⟨by decide, by decide, by decide, by decide⟩

/-- C3 (amended): pre-validation derives exactly one implicit block
context per non-new-chunk block of the window (the walk's first
accumulator minus its last-chunk block), but validation replays only the
zip of that list with witness.implicit_transitions: transitions beyond the
window length are ignored, so the length equality claimed in C3 is not
enforced on accepted witnesses. -/
theorem c3_implicit_window_amended (env : Env) (store : ChainStore)
    (em : EpochManagerAdapter) (rt : Runtime) (w : ChunkStateWitness)
    (fuel : Nat) (out : PreValidationOutput) (b1 b2 : List Block)
    (hwalk : walkLoop store w.chunk_header.shard_id fuel
      w.chunk_header.prev_block_hash 0 [] [] = some (Except.ok (b1, b2)))
    (hpre : pre_validate_chunk_state_witness env store em w fuel =
      some (Except.ok out)) :
    out.implicit_transition_params.length = b1.length - 1 ∧
    (∀ pre2 : PreValidationOutput,
      validate_chunk_state_witness env em rt
        { w with implicit_transitions :=
            (w.implicit_transitions.take
              pre2.implicit_transition_params.length) } pre2 =
        validate_chunk_state_witness env em rt w pre2) := by
  constructor
  · have hb := (walkLoop_nonempty store _ fuel _ _ _ _ _ _ hwalk).1 rfl
    obtain ⟨lcb, hsl⟩ := splitLastList_ne_none b1 hb.1
    obtain ⟨old, hold⟩ := getLast?_some_of_ne_nil b2 hb.2
    simp only [pre_validate_chunk_state_witness, hwalk, Option.some.injEq]
      at hpre
    simp only [preValidateAfterWalk, hsl, hold] at hpre
    split at hpre
    · simp at hpre
    · split at hpre
      · simp at hpre
      · split at hpre
        · simp at hpre
        · split at hpre
          · simp at hpre
          · split at hpre
            · simp at hpre
            · split at hpre
              · simp at hpre
              · split at hpre
                · simp at hpre
                · rename_i ps hbuild
                  simp only [Except.ok.injEq] at hpre
                  rw [← hpre]
                  simp only
                  rw [buildImplicitParams_length env store _ _ hbuild,
                    List.length_reverse, List.length_dropLast]
  · intro pre2
    dsimp only [validate_chunk_state_witness, replayStateTransitions]
    rw [zip_take_length]

/-- Witness for the amended C3 at the fixture: the derived window is
empty, and truncating the witness's implicit transitions to the window
length does not change the validation verdict. -/
theorem c3_implicit_window_amended_witness :
    preOut0.implicit_transition_params.length = [blockA].length - 1 ∧
    validate_chunk_state_witness env0 em0 rt0
      { witness0 with implicit_transitions :=
          (witness0.implicit_transitions.take
            preOut0.implicit_transition_params.length) } preOut0 =
      validate_chunk_state_witness env0 em0 rt0 witness0 preOut0 := by
  have h := c3_implicit_window_amended env0 twoBlockStore em0 rt0 witness0 2
    preOut0 [blockA] [blockB] rfl rfl
  exact ⟨h.1, h.2 preOut0⟩

/-- C10: whenever the backward chain walk terminates successfully (two new
chunks seen, no store error), both accumulators are non-empty and every
accumulated block has a chunk entry at the witness's shard index, so the
split_last / last / chunks-get unwraps of pre_validate_chunk_state_witness
cannot panic (given that the external collaborators return real errors,
never the panic marker). -/
theorem c10_unwraps_never_panic (env : Env) (store : ChainStore)
    (em : EpochManagerAdapter) (w : ChunkStateWitness) (fuel : Nat)
    (b1 b2 : List Block)
    (hwalk : walkLoop store w.chunk_header.shard_id fuel
      w.chunk_header.prev_block_hash 0 [] [] = some (Except.ok (b1, b2)))
    (hrec : ∀ em2 sid h n, store.get_incoming_receipts_for_shard em2 sid h n ≠
      Except.error Error.panicUnwrap)
    (hprev : ∀ h, store.get_previous_header h ≠ Except.error Error.panicUnwrap)
    (hctx : ∀ h p b, env.get_apply_chunk_block_context h p b ≠
      Except.error Error.panicUnwrap) :
    b1 ≠ [] ∧ b2 ≠ [] ∧
    (∀ b ∈ b1, ∃ c, b.chunks.get? w.chunk_header.shard_id = some c) ∧
    (∀ b ∈ b2, ∃ c, b.chunks.get? w.chunk_header.shard_id = some c) ∧
    pre_validate_chunk_state_witness env store em w fuel ≠
      some (Except.error Error.panicUnwrap) := by
  have hb := (walkLoop_nonempty store _ fuel _ _ _ _ _ _ hwalk).1 rfl
  obtain ⟨hP1, hP2⟩ := walkLoop_chunks_exist store _ fuel _ _ _ _ _ _ hwalk
    (by simp) (by simp)
  refine ⟨hb.1, hb.2, hP1, hP2, ?_⟩
  simp only [pre_validate_chunk_state_witness, hwalk]
  intro hc
  simp only [Option.some.injEq] at hc
  exact preValidateAfterWalk_no_panic env store em w b1 b2 hb.1 hb.2 hP1
    hrec hprev hctx hc

/-- Witness for C10 at the two-block fixture chain: the walk terminates
with both accumulators non-empty and pre-validation does not hit a panic
marker. -/
theorem c10_unwraps_never_panic_witness :
    [blockA] ≠ ([] : List Block) ∧ [blockB] ≠ ([] : List Block) ∧
    (∀ b ∈ [blockA], ∃ c,
      b.chunks.get? witness0.chunk_header.shard_id = some c) ∧
    (∀ b ∈ [blockB], ∃ c,
      b.chunks.get? witness0.chunk_header.shard_id = some c) ∧
    pre_validate_chunk_state_witness env0 twoBlockStore em0 witness0 2 ≠
      some (Except.error Error.panicUnwrap) := by
  refine c10_unwraps_never_panic env0 twoBlockStore em0 witness0 2 [blockA]
    [blockB] rfl ?_ ?_ ?_
  · intro em2 sid h n
    simp [twoBlockStore]
  · intro h
    by_cases hh : h = blockA.header <;> simp [twoBlockStore, hh]
  · intro h p b
    simp [env0]
